import Mathlib

/-!
Verification of the tbx-proxy worker (a TeraBox share resolver / streaming proxy).

The JavaScript source is embedded shallowly:
* text is modelled as `List Char` (called `Text` below) so that every string
  operation is a plain structural computation the kernel can evaluate;
* each handler is translated into a pure function that returns the observable
  outcome (HTTP status, error code, response payload) together with an explicit
  trace of the side effects it would perform (network calls, cache writes,
  cache deletions), so that claims about "issues no network call" or
  "deletes the token" become statements about that trace;
* JavaScript truthiness (`x || y`, `if (obj)`) is modelled explicitly where the
  source relies on it.
-/

namespace TbxProxy

/-- Text is modelled as a list of characters so all operations compute. -/
abbrev Text := List Char

/-- Coerce a Lean string literal to the `Text` representation. -/
def chars (s : String) : Text := s.data

/-- `startsWith` of JS strings. -/
def startsWithL (p s : Text) : Bool := p.isPrefixOf s

/-- `endsWith` of JS strings. -/
def endsWithL (p s : Text) : Bool := p.isSuffixOf s

/-- `line.trim() === ''` : the line holds only whitespace. -/
def jsTrimEmpty (line : Text) : Bool := line.all Char.isWhitespace

/-- Split a text at the FIRST occurrence of `pat`, returning the part before
and the part after it; `none` when `pat` does not occur (JS `indexOf` = -1). -/
def splitAtSubstr (pat : Text) : Text → Option (Text × Text)
  | [] => if pat = ([] : Text) then some ([], []) else none
  | c :: rest =>
    if pat.isPrefixOf (c :: rest) then some ([], (c :: rest).drop pat.length)
    else
      match splitAtSubstr pat rest with
      | some (pre, post) => some (c :: pre, post)
      | none => none

/-- `String.prototype.split(sep)` of JS for a one-character separator. -/
def splitOnChar (sep : Char) : Text → List Text
  | [] => [[]]
  | c :: rest =>
    match splitOnChar sep rest with
    | [] => [[]]
    | l :: ls => if c = sep then [] :: l :: ls else (c :: l) :: ls

/-- `Array.prototype.join(sep)` of JS for a one-character separator. -/
def joinWithChar (sep : Char) : List Text → Text
  | [] => []
  | [l] => l
  | l :: ls => l ++ sep :: joinWithChar sep ls

/-- Everything up to (excluding) the first character satisfying `stop`. -/
def takeUntil (stop : Char → Bool) : Text → Text
  | [] => []
  | c :: rest => if stop c then [] else c :: takeUntil stop rest

/-- Lowercase a text, as the WHATWG URL parser normalises hostnames. -/
def toLowerText (t : Text) : Text := t.map Char.toLower

/-- The part after the LAST occurrence of `c` (the whole text if absent);
used to drop the userinfo before a hostname. -/
def afterLastChar (c : Char) (t : Text) : Text :=
  ((t.reverse.takeWhile (fun d => d ≠ c))).reverse

/-- A character allowed inside a URL scheme. -/
def isSchemeChar (c : Char) : Bool :=
  c.isAlpha || c.isDigit || c = '+' || c = '-' || c = '.'

/-- Model of the hostname extraction done by `new URL(urlString).hostname` in
the worker, for the ordinary `scheme://host/...` shapes the relay receives
(the shapes the manifest rewriter itself produces): the text must contain
`://` preceded by a non-empty scheme; the hostname is the authority part up
to the first `/`, `?` or `#`, with userinfo (`...@`) and `:port` stripped and
lowercased.  An empty hostname or a missing `://` is a parse failure, which
in JS makes the `URL` constructor throw. -/
def parseUrlHostname (s : Text) : Option Text :=
  match splitAtSubstr (chars "://") s with
  | none => none
  | some (scheme, rest) =>
    if scheme ≠ ([] : Text) && scheme.all isSchemeChar then
      let authority := takeUntil (fun c => c = '/' || c = '?' || c = '#') rest
      let hostPort := afterLastChar '@' authority
      let host := takeUntil (fun c => c = ':') hostPort
      if host = ([] : Text) then none else some (toLowerText host)
    else none

/-- Allowed domains for segment proxying (SSRF protection), verbatim from
`src/handlers.js`. -/
def ALLOWED_SEGMENT_DOMAINS : List Text :=
  [ chars "terabox.com"
  , chars "terabox.app"
  , chars "1024tera.com"
  , chars "1024terabox.com"
  , chars "freeterabox.com"
  , chars "teraboxcdn.com"
  , chars "dm.terabox.app"
  , chars "dm.1024tera.com"
  , chars "terasharelink.com"
  , chars "terafileshare.com"
  , chars "teraboxlink.com"
  , chars "teraboxshare.com" ]

/-- `isAllowedSegmentUrl` from `src/handlers.js`: parse the URL (a parse
failure is caught and yields `false`) and check the hostname against the
allow-list by exact match or suffix match on `'.' + domain`. -/
def isAllowedSegmentUrl (urlString : Text) : Bool :=
  match parseUrlHostname urlString with
  | none => false
  | some hostname =>
    ALLOWED_SEGMENT_DOMAINS.any fun domain =>
      hostname == domain || endsWithL ('.' :: domain) hostname

/-- Observable outcome of `handleSegment` up to the validation decision:
either an error response (no upstream fetch happens) or a single upstream
fetch of the given URL. -/
inductive SegmentAction
  | badRequest (status : Nat)
  | blocked (status : Nat) (code : Text)
  | fetchUpstream (url : Text)
deriving DecidableEq

/-- `handleSegment` from `src/handlers.js`, modelled up to the point the
outbound fetch is issued: a missing `url` parameter is a 400, a URL that
fails `isAllowedSegmentUrl` is rejected with 403 `invalid_segment_url`
before any network call, and only an allowed URL reaches the fetch. -/
def handleSegment (targetUrl : Option Text) : SegmentAction :=
  match targetUrl with
  | none => SegmentAction.badRequest 400
  | some u =>
    if !isAllowedSegmentUrl u then
      SegmentAction.blocked 403 (chars "invalid_segment_url")
    else
      SegmentAction.fetchUpstream u

/-! ## Upstream client: `fetchWithRetry` -/

/-- Outcome of one `fetch` call: a resolved response with a status, or a
rejected promise (network-level error). -/
inductive FetchOutcome
  | res (status : Nat)
  | err
deriving DecidableEq

/-- `res.ok` of a JS `Response`: status in the range 200–299. -/
def resOk (status : Nat) : Bool := 200 ≤ status && status ≤ 299

/-- `isTransientStatus` from `src/handlers.js`. -/
def isTransientStatus (status : Nat) : Bool :=
  status == 408 || status == 429 || (500 ≤ status && status ≤ 599)

/-- An attempt that makes `fetchWithRetry` continue: a network error, or a
non-ok response with a transient status. -/
def transientFailure : FetchOutcome → Bool
  | FetchOutcome.err => true
  | FetchOutcome.res s => !resOk s && isTransientStatus s

/-- Trace of one `fetchWithRetry` run: the value it settles on (`some status`
for a returned response, `none` for a thrown error), how many `fetch` calls
were made, and the waits (in ms) inserted between consecutive attempts. -/
structure RetryTrace where
  result : Option Nat
  attempts : Nat
  delays : List Nat
deriving DecidableEq

/-- Loop body of `fetchWithRetry` from `src/handlers.js`.  `attempt` is the
0-based attempt counter of the source; `fuel` is `retries - attempt`, so
`fuel = 0` is the final attempt (`attempt === retries`), which returns the
response (or re-throws the error) without a further delay.  A non-final
attempt whose response is neither ok nor non-transient — or which threw —
is followed by a `baseDelayMs * 2 ^ attempt` wait and another attempt. -/
def fetchWithRetryGo (f : Nat → FetchOutcome) (baseDelayMs attempt : Nat) :
    Nat → RetryTrace
  | 0 =>
    match f attempt with
    | FetchOutcome.res s => ⟨some s, attempt + 1, []⟩
    | FetchOutcome.err => ⟨none, attempt + 1, []⟩
  | fuel + 1 =>
    match f attempt with
    | FetchOutcome.res s =>
      if resOk s || !isTransientStatus s then ⟨some s, attempt + 1, []⟩
      else
        let t := fetchWithRetryGo f baseDelayMs (attempt + 1) fuel
        ⟨t.result, t.attempts, baseDelayMs * 2 ^ attempt :: t.delays⟩
    | FetchOutcome.err =>
      let t := fetchWithRetryGo f baseDelayMs (attempt + 1) fuel
      ⟨t.result, t.attempts, baseDelayMs * 2 ^ attempt :: t.delays⟩

/-- `fetchWithRetry(url, options, retries = 2, baseDelayMs = 200)` from
`src/handlers.js`, over the sequence `f` of upstream outcomes (one per
attempt index). -/
def fetchWithRetry (f : Nat → FetchOutcome) (retries baseDelayMs : Nat) :
    RetryTrace :=
  fetchWithRetryGo f baseDelayMs 0 retries

/-- The simulated upstream sequence [500, 500, 200]. -/
def seq500x2then200 (attempt : Nat) : FetchOutcome :=
  if attempt < 2 then FetchOutcome.res 500 else FetchOutcome.res 200

/-- The simulated upstream sequence [500, 500, 500, ...]. -/
def seqAll500 (_ : Nat) : FetchOutcome := FetchOutcome.res 500

/-! ## Manifest rewriter: `rewriteM3U8` -/

/-- The hexadecimal digit characters used by percent-encoding. -/
def hexDigits : Text := chars "0123456789ABCDEF"

/-- The `n`-th uppercase hexadecimal digit. -/
def hexDigit (n : Nat) : Char := hexDigits.getD n '0'

/-- Percent-encoding `%HH` of one byte. -/
def percentEncodeByte (b : Nat) : Text := ['%', hexDigit (b / 16), hexDigit (b % 16)]

/-- UTF-8 bytes of one character. -/
def utf8BytesChar (c : Char) : List Nat :=
  let n := c.toNat
  if n < 128 then [n]
  else if n < 2048 then [192 + n / 64, 128 + n % 64]
  else if n < 65536 then [224 + n / 4096, 128 + (n / 64) % 64, 128 + n % 64]
  else [240 + n / 262144, 128 + (n / 4096) % 64, 128 + (n / 64) % 64, 128 + n % 64]

/-- UTF-8 bytes of a text. -/
def utf8Bytes (t : Text) : List Nat := (t.map utf8BytesChar).flatten

/-- A character the `URLSearchParams` serialiser leaves unescaped
(`application/x-www-form-urlencoded`): ASCII alphanumerics and `*-._`. -/
def isFormUnreserved (c : Char) : Bool :=
  ('a' ≤ c && c ≤ 'z') || ('A' ≤ c && c ≤ 'Z') || ('0' ≤ c && c ≤ '9') ||
    c = '*' || c = '-' || c = '.' || c = '_'

/-- `application/x-www-form-urlencoded` serialisation of one value, as
`URLSearchParams.toString()` produces it: space becomes `+`, unreserved
characters pass through, everything else is percent-encoded per UTF-8 byte. -/
def formUrlEncode (t : Text) : Text :=
  (t.map fun c =>
    if isFormUnreserved c then [c]
    else if c = ' ' then ['+']
    else (utf8BytesChar c).map percentEncodeByte |>.flatten).flatten

/-- Value of one hexadecimal digit character, case-insensitive. -/
def hexVal? (c : Char) : Option Nat :=
  if '0' ≤ c && c ≤ '9' then some (c.toNat - 48)
  else if 'A' ≤ c && c ≤ 'F' then some (c.toNat - 55)
  else if 'a' ≤ c && c ≤ 'f' then some (c.toNat - 87)
  else none

/-- Decoding of an `application/x-www-form-urlencoded` value back to its byte
sequence: `+` is a space, `%HH` is one byte, a plain ASCII character is its
own byte. -/
def formUrlDecodeBytes : Text → Option (List Nat)
  | [] => some []
  | '+' :: rest => (formUrlDecodeBytes rest).map (fun bs => 32 :: bs)
  | '%' :: h1 :: h2 :: rest =>
    match hexVal? h1, hexVal? h2 with
    | some a, some b => (formUrlDecodeBytes rest).map (fun bs => (16 * a + b) :: bs)
    | _, _ => none
  | c :: rest => (formUrlDecodeBytes rest).map (fun bs => c.toNat :: bs)

/-- The query part of a URL text (everything after the first `?`). -/
def queryOf (u : Text) : Text :=
  match splitAtSubstr (chars "?") u with
  | none => []
  | some (_, q) => q

/-- The (still encoded) value of query parameter `key` in a URL text. -/
def getQueryParam (u : Text) (key : Text) : Option Text :=
  (splitOnChar '&' (queryOf u)).findSome? fun kv =>
    match splitAtSubstr (chars "=") kv with
    | some (k, v) => if k == key then some v else none
    | none => none

/-- Rewrite of one playlist line by `rewriteM3U8` in `src/m3u8.js`: a line
that starts with `#`, trims to empty, or does not start with `http` passes
through unchanged; otherwise the line is replaced by the request's own base
URL (query already stripped by `base.search = ''`) carrying the query
parameters `mode=segment` and `url=<the original line>`, in that insertion
order, serialised by `URLSearchParams`. -/
def rewriteLine (base line : Text) : Text :=
  if startsWithL (chars "#") line || jsTrimEmpty line ||
      !startsWithL (chars "http") line then
    line
  else
    base ++ chars "?mode=segment&url=" ++ formUrlEncode line

/-- `rewriteM3U8(content, request)` from `src/m3u8.js`: split on newlines,
rewrite each line, join back.  `base` is the request's own URL with its query
stripped. -/
def rewriteM3U8 (content base : Text) : Text :=
  joinWithChar '\n' ((splitOnChar '\n' content).map (rewriteLine base))

/-- Follows the SPEC's words, for comparison with the source's test: the spec
says lines "that are absolute URLs" are rewritten and all other lines pass
through.  A line is an absolute URL when it parses as a URL with a scheme and
a host (the source instead tests `line.startsWith('http')`). -/
def specIsAbsoluteUrl (line : Text) : Bool := (parseUrlHostname line).isSome

/-! ## Resolution pipeline: cache tiers (`handleResolve`, first half) -/

/-- Outcome of a cache-tier read: the read threw (caught by the source and
treated as a miss that falls through), found nothing, or found an entry. -/
inductive ReadOutcome
  | failure
  | miss
  | hit
deriving DecidableEq

/-- A cache tier that `handleResolve` may read. -/
inductive CacheTier
  | fastCache
  | durableStore
deriving DecidableEq

/-- Where the response ends up coming from: the fast cache (KV), the durable
store (D1), or the live upstream path. -/
inductive TierResult
  | fromKv
  | fromD1
  | live
deriving DecidableEq

/-- The literal `source` tag the worker writes into the response JSON for
each tier (`src/handlers.js` lines 104, 122 and 256/290). -/
def sourceTag : TierResult → Text
  | TierResult.fromKv => chars "kv"
  | TierResult.fromD1 => chars "d1"
  | TierResult.live => chars "live"

/-- The cache-tier dispatch at the top of `handleResolve`
(`src/handlers.js` lines 97–132): the fast cache (KV) is read only when
neither `refresh` nor `raw` is set and a hit answers immediately; the durable
store (D1) is read only when `raw` is set, `refresh` is not, and the D1
binding exists; a read failure falls through like a miss; everything else
goes to the live path.  Returns the list of cache reads performed, in order,
and where the response comes from. -/
def resolveTierPlan (refresh raw hasD1 : Bool) (kvRead d1Read : ReadOutcome) :
    List CacheTier × TierResult :=
  if !refresh && !raw then
    match kvRead with
    | ReadOutcome.hit => ([CacheTier.fastCache], TierResult.fromKv)
    | _ =>
      if raw && !refresh && hasD1 then
        match d1Read with
        | ReadOutcome.hit =>
          ([CacheTier.fastCache, CacheTier.durableStore], TierResult.fromD1)
        | _ => ([CacheTier.fastCache, CacheTier.durableStore], TierResult.live)
      else ([CacheTier.fastCache], TierResult.live)
  else
    if raw && !refresh && hasD1 then
      match d1Read with
      | ReadOutcome.hit => ([CacheTier.durableStore], TierResult.fromD1)
      | _ => ([CacheTier.durableStore], TierResult.live)
    else ([], TierResult.live)

/-! ## Resolution pipeline: live path (`handleResolve`, second half) -/

/-- Truthiness of a JS string-or-nullish value: `null`, `undefined` and the
empty string are falsy. -/
def truthyText : Option Text → Bool
  | none => false
  | some t => !(t == ([] : Text))

/-- `a || b` on JS string-or-nullish values. -/
def jsOrText (a b : Option Text) : Option Text := if truthyText a then a else b

/-- Truthiness of a JS number-or-nullish value: `null`, `undefined` and `0`
are falsy. -/
def truthyNat : Option Nat → Bool
  | none => false
  | some n => !(n == 0)

/-- `a || b` on JS number-or-nullish values. -/
def jsOrNat (a b : Option Nat) : Option Nat := if truthyNat a then a else b

/-- The `thumbs` object of an upstream file (`url1` smallest … `url3`
largest, plus `icon`); absent fields are `none`. -/
structure Thumbs where
  url1 : Option Text
  url2 : Option Text
  url3 : Option Text
  icon : Option Text
deriving DecidableEq

/-- One entry of the upstream `list`, with the fields the canonical
projection reads; `thumbs := none` models a file object without a `thumbs`
property. -/
structure UFile where
  server_filename : Text
  dlink : Option Text
  size : Nat
  server_mtime : Nat
  fs_id : Text
  thumbs : Option Thumbs
deriving DecidableEq

/-- The upstream metadata API payload, with the fields `handleResolve`
reads. -/
structure Upstream where
  list : List UFile
  uk : Text
  shareid : Option Nat
  share_id : Option Nat
deriving DecidableEq

/-- `file.thumbs?.url3 || file.thumbs?.url2 || file.thumbs?.url1 || null`
from `src/handlers.js` line 271: optional chaining on a missing `thumbs`
yields `undefined`, and `||` skips falsy (absent or empty) URLs. -/
def bestThumb (thumbs : Option Thumbs) : Option Text :=
  match thumbs with
  | none => none
  | some t => jsOrText t.url3 (jsOrText t.url2 (jsOrText t.url1 none))

/-- The canonical record written to the fast cache and returned in canonical
live mode (`src/handlers.js` lines 265–277). -/
structure CanonicalRecord where
  name : Text
  dlink : Option Text
  size : Nat
  time : Nat
  original_url : Text
  thumb : Option Text
  uk : Text
  shareid : Option Nat
  fid : Text
  stored_at : Nat
  last_verified : Nat
deriving DecidableEq

/-- Projection of the first upstream file into a `CanonicalRecord`
(`src/handlers.js` lines 262–277); `now` is `Math.floor(Date.now()/1000)`. -/
def projectRecord (surl : Text) (now : Nat) (upstream : Upstream)
    (file : UFile) : CanonicalRecord :=
  { name := file.server_filename
    dlink := file.dlink
    size := file.size
    time := file.server_mtime
    original_url := chars "https://terabox.app/s/" ++ surl
    thumb := bestThumb file.thumbs
    uk := upstream.uk
    shareid := jsOrNat upstream.shareid upstream.share_id
    fid := file.fs_id
    stored_at := now
    last_verified := now }

/-- `findBetween(str, start, end)` from `src/utils.js`: the slice strictly
between the first occurrence of `start` and the next occurrence of `stop`
after it; `null` when either delimiter is missing. -/
def findBetween (str start stop : Text) : Option Text :=
  match splitAtSubstr start str with
  | none => none
  | some (_, post) =>
    match splitAtSubstr stop post with
    | none => none
    | some (mid, _) => some mid

/-- `extractJsToken(html)` from `src/utils.js`. -/
def extractJsToken (html : Text) : Option Text :=
  findBetween html (chars "fn%28%22") (chars "%22%29")

/-- Side effects the live path performs, in order: metadata API calls (each
already wrapped in `fetchWithRetry`), the token-store delete on an auth
failure, the share-page fetch (also retried), the token-store write with its
TTL in seconds, the durable-store write, and the fast-cache write with its
TTL in seconds and the outcome of the attempt (`ok = false` is a caught
write failure). -/
inductive LiveEvent
  | apiCall (token : Text)
  | tokenDelete
  | pageFetch
  | tokenPut (token : Text) (ttlSeconds : Nat)
  | d1Store (upstream : Upstream)
  | kvPut (record : CanonicalRecord) (ttlSeconds : Nat) (ok : Bool)
deriving DecidableEq

/-- Outcome of the live path: an error response with its HTTP status and
`code` field, the raw-mode success payload, or the canonical-mode success
record; successes carry the literal `source` tag. -/
inductive LiveOutcome
  | errorResponse (status : Nat) (code : Text)
  | successRaw (source : Text) (upstream : Upstream)
  | success (source : Text) (record : CanonicalRecord)
deriving DecidableEq

/-- A metadata API response once the promise resolved: its status, and its
body as JSON (`none` models a body that fails `apiRes.json()`). -/
structure ApiResponse where
  status : Nat
  body : Option Upstream
deriving DecidableEq

/-- Environment of one live resolution: the cached token (a token-store read
failure is caught by the source and already folded into `none`), the
metadata API outcome per token (`none` = the retried call ultimately threw),
the share-page fetch outcome (`none` = the retried fetch ultimately threw,
otherwise its status), the page HTML, whether the D1 binding exists, whether
the fast-cache write succeeds, and the current Unix time. -/
structure LiveEnv where
  cachedToken : Option Text
  api : Text → Option ApiResponse
  page : Option Nat
  pageHtml : Text
  hasD1 : Bool
  kvWriteOk : Bool
  now : Nat

/-- `handleResolve` from the successful-status check onward
(`src/handlers.js` lines 223–293): a non-ok API status is a 502
`upstream_error`; a body that does not parse as JSON is a 502
`upstream_non_json`; a missing or empty `list` is a 502 `upstream_empty`;
otherwise the payload is stored to D1 (when bound), and either returned raw
(tag `live`) or projected from the first file, written to the fast cache
with a 7-day TTL (a write failure is caught and ignored) and returned with
tag `live`.  Returns the events of this stage and the outcome. -/
def livePost (env : LiveEnv) (surl : Text) (raw : Bool) (r : ApiResponse) :
    List LiveEvent × LiveOutcome :=
  if !resOk r.status then
    ([], LiveOutcome.errorResponse 502 (chars "upstream_error"))
  else
    match r.body with
    | none => ([], LiveOutcome.errorResponse 502 (chars "upstream_non_json"))
    | some up =>
      match up.list with
      | [] => ([], LiveOutcome.errorResponse 502 (chars "upstream_empty"))
      | file :: _ =>
        let storeEvents : List LiveEvent :=
          if env.hasD1 then [LiveEvent.d1Store up] else []
        if raw then
          (storeEvents, LiveOutcome.successRaw (chars "live") up)
        else
          let record := projectRecord surl env.now up file
          (storeEvents ++ [LiveEvent.kvPut record (7 * 24 * 60 * 60) env.kvWriteOk],
            LiveOutcome.success (chars "live") record)

/-- The no-usable-token branch of `handleResolve` (`src/handlers.js` lines
178–221): fetch the share page (with retry); a thrown or non-ok page fetch
is a 502 `upstream_error`; scrape the token from the HTML and fail with 403
`token_extract_failed` when none is found (the scrape is not retried); cache
the fresh token with a 10-minute TTL; call the metadata API with it (a
thrown call is a 502 `upstream_error`); continue with the response. -/
def liveNoToken (env : LiveEnv) (surl : Text) (raw : Bool) :
    List LiveEvent × LiveOutcome :=
  match env.page with
  | none =>
    ([LiveEvent.pageFetch], LiveOutcome.errorResponse 502 (chars "upstream_error"))
  | some pageStatus =>
    if !resOk pageStatus then
      ([LiveEvent.pageFetch], LiveOutcome.errorResponse 502 (chars "upstream_error"))
    else
      match extractJsToken env.pageHtml with
      | none =>
        ([LiveEvent.pageFetch],
          LiveOutcome.errorResponse 403 (chars "token_extract_failed"))
      | some tok =>
        match env.api tok with
        | none =>
          ([LiveEvent.pageFetch, LiveEvent.tokenPut tok (10 * 60),
              LiveEvent.apiCall tok],
            LiveOutcome.errorResponse 502 (chars "upstream_error"))
        | some r =>
          let p := livePost env surl raw r
          (LiveEvent.pageFetch :: LiveEvent.tokenPut tok (10 * 60) ::
              LiveEvent.apiCall tok :: p.1,
            p.2)

/-- The live path of `handleResolve` (`src/handlers.js` lines 150–293),
entered after every cache tier missed: with a cached token, call the
metadata API directly (a thrown call is a 502 `upstream_error`); on a 401 or
403 delete the cached token and continue exactly as if none had been cached;
without a usable token run `liveNoToken`. -/
def handleResolveLive (env : LiveEnv) (surl : Text) (raw : Bool) :
    List LiveEvent × LiveOutcome :=
  match env.cachedToken with
  | none => liveNoToken env surl raw
  | some t =>
    match env.api t with
    | none =>
      ([LiveEvent.apiCall t], LiveOutcome.errorResponse 502 (chars "upstream_error"))
    | some r =>
      if r.status == 401 || r.status == 403 then
        let p := liveNoToken env surl raw
        (LiveEvent.apiCall t :: LiveEvent.tokenDelete :: p.1, p.2)
      else
        let p := livePost env surl raw r
        (LiveEvent.apiCall t :: p.1, p.2)

/-! ## Durable store (`src/db.js`) -/

/-- One row of the `thumbnails` table. -/
structure ThumbRow where
  fs_id : Text
  url : Text
  thumbnail_type : Text
deriving DecidableEq

/-- The `thumbnails` table, as the row list. -/
abbrev ThumbTable := List ThumbRow

/-- `thumbs[type]` for the four tag names iterated by `saveThumbnails`. -/
def thumbField (thumbs : Thumbs) (ty : Text) : Option Text :=
  if ty == chars "url1" then thumbs.url1
  else if ty == chars "url2" then thumbs.url2
  else if ty == chars "url3" then thumbs.url3
  else if ty == chars "icon" then thumbs.icon
  else none

/-- `const thumbnailTypes = ['url1', 'url2', 'url3', 'icon']` from
`src/db.js`. -/
def thumbnailTypes : List Text :=
  [chars "url1", chars "url2", chars "url3", chars "icon"]

/-- The rows `saveThumbnails` inserts: one per tag whose value is truthy
(`if (thumbs[type])` skips absent and empty URLs), in tag order. -/
def newThumbRows (fsId : Text) (thumbs : Thumbs) : List ThumbRow :=
  thumbnailTypes.filterMap fun ty =>
    match thumbField thumbs ty with
    | some u => if u == ([] : Text) then none else some ⟨fsId, u, ty⟩
    | none => none

/-- `saveThumbnails(db, fsId, thumbs)` from `src/db.js`, as its effect on the
`thumbnails` table: delete every existing row of this `fs_id`, then insert
the truthy tags. -/
def saveThumbnails (table : ThumbTable) (fsId : Text) (thumbs : Thumbs) :
    ThumbTable :=
  (table.filter fun r => !(r.fs_id == fsId)) ++ newThumbRows fsId thumbs

/-- The effect of `saveMediaFile` on the `thumbnails` table: `saveThumbnails`
runs only under `if (file.thumbs)` — a file object without a (truthy)
`thumbs` property leaves the table untouched. -/
def saveMediaFileThumbEffect (table : ThumbTable) (file : UFile) : ThumbTable :=
  match file.thumbs with
  | none => table
  | some th => saveThumbnails table file.fs_id th

/-- The per-file loop of `storeUpstreamData` (`src/db.js` lines 121–138):
`for (const file of upstream.list) await saveMediaFile(...)` runs inside the
single `try { ... } catch` of `storeUpstreamData`, so an exception thrown
while saving one file propagates to that catch and the remaining files of
the list are never saved.  `fails fsId = true` means the save of that file
throws.  Returns the `fs_id`s actually saved, in order, and the boolean
`storeUpstreamData` resolves to (`false` when the catch ran). -/
def storeUpstreamFiles (fails : Text → Bool) : List UFile → List Text × Bool
  | [] => ([], true)
  | f :: rest =>
    if fails f.fs_id then ([], false)
    else
      let p := storeUpstreamFiles fails rest
      (f.fs_id :: p.1, p.2)

/-- `storeUpstreamData(db, shareId, upstream)` at the file level: the share
row is upserted first, then the file loop runs; the whole body is wrapped in
one try/catch whose failure is only logged. -/
def storeUpstreamData (fails : Text → Bool) (upstream : Upstream) :
    List Text × Bool :=
  storeUpstreamFiles fails upstream.list

/-- One row of the `media_files` table, with the columns bound by
`saveMediaFile`. -/
structure MediaRow where
  fs_id : Text
  share_id : Text
  category : Option Nat
  isdir : Nat
  local_ctime : Option Nat
  local_mtime : Option Nat
  md5 : Option Text
  path : Option Text
  play_forbid : Nat
  server_ctime : Option Nat
  server_filename : Option Text
  server_mtime : Option Nat
  size : Option Nat
  is_adult : Nat
  cmd5 : Option Text
  dlink : Option Text
deriving DecidableEq

/-- An upstream file object as `saveMediaFile` reads it, fields nullable the
way the JS object is. -/
structure DbFile where
  fs_id : Text
  category : Option Nat
  isdir : Option Nat
  local_ctime : Option Nat
  local_mtime : Option Nat
  md5 : Option Text
  path : Option Text
  play_forbid : Option Nat
  server_ctime : Option Nat
  server_filename : Option Text
  server_mtime : Option Nat
  size : Option Nat
  is_adult : Option Nat
  cmd5 : Option Text
  dlink : Option Text
deriving DecidableEq

/-- `x || null` on a JS number-or-nullish value. -/
def jsOrNullNat (v : Option Nat) : Option Nat := jsOrNat v none

/-- `x || null` on a JS string-or-nullish value. -/
def jsOrNullText (v : Option Text) : Option Text := jsOrText v none

/-- `x || 0` on a JS number-or-nullish value. -/
def jsOrZero (v : Option Nat) : Nat :=
  match jsOrNat v (some 0) with
  | some n => n
  | none => 0

/-- The values `saveMediaFile` binds into its INSERT (`src/db.js` lines
63–80), with the source's `|| null`, `|| 0` and
`file.size ? Number(file.size) : null` coalescing. -/
def bindMediaValues (shareId : Text) (file : DbFile) : MediaRow :=
  { fs_id := file.fs_id
    share_id := shareId
    category := jsOrNullNat file.category
    isdir := jsOrZero file.isdir
    local_ctime := jsOrNullNat file.local_ctime
    local_mtime := jsOrNullNat file.local_mtime
    md5 := jsOrNullText file.md5
    path := jsOrNullText file.path
    play_forbid := jsOrZero file.play_forbid
    server_ctime := jsOrNullNat file.server_ctime
    server_filename := jsOrNullText file.server_filename
    server_mtime := jsOrNullNat file.server_mtime
    size := if truthyNat file.size then file.size else none
    is_adult := jsOrZero file.is_adult
    cmd5 := jsOrNullText file.cmd5
    dlink := jsOrNullText file.dlink }

/-- The `media_files` upsert of `saveMediaFile` (`src/db.js` lines 43–61):
with no existing row for the `fs_id` the bound values are inserted; on
conflict the `ON CONFLICT(fs_id) DO UPDATE SET` clause overwrites exactly
`share_id`, `category`, `md5`, `path`, `server_filename`, `server_mtime`,
`size`, `is_adult`, `cmd5` and `dlink` with the excluded (bound) values,
leaving every other column of the existing row as it was. -/
def saveMediaFileRow (existing : Option MediaRow) (shareId : Text)
    (file : DbFile) : MediaRow :=
  let v := bindMediaValues shareId file
  match existing with
  | none => v
  | some old =>
    { old with
      share_id := v.share_id
      category := v.category
      md5 := v.md5
      path := v.path
      server_filename := v.server_filename
      server_mtime := v.server_mtime
      size := v.size
      is_adult := v.is_adult
      cmd5 := v.cmd5
      dlink := v.dlink }

/-! ## Concrete fixtures used to instantiate the theorems -/

/-- A request base URL (query already stripped) for the rewriter examples. -/
def baseExample : Text := chars "https://proxy.example/"

/-- A cached token value. -/
def tokenA : Text := chars "cachedTok"

/-- Share-page HTML embedding the token `freshTok` between the scraper's
delimiters. -/
def htmlWithToken : Text := chars "<script>fn%28%22freshTok%22%29</script>"

/-- Share-page HTML with no token delimiters. -/
def htmlNoToken : Text := chars "<html>no token here</html>"

/-- A thumbs object with `url3` absent and `url1`, `url2`, `icon` present. -/
def thumbsA : Thumbs :=
  { url1 := some (chars "https://cdn/t1.jpg")
    url2 := some (chars "https://cdn/t2.jpg")
    url3 := none
    icon := some (chars "https://cdn/ic.jpg") }

/-- A first upstream file. -/
def fileA : UFile :=
  { server_filename := chars "movie.mp4"
    dlink := some (chars "https://d.terabox.app/file/abc")
    size := 1000
    server_mtime := 1700000000
    fs_id := chars "f100"
    thumbs := some thumbsA }

/-- A second upstream file, without a thumbs object. -/
def fileB : UFile :=
  { server_filename := chars "b.mp4"
    dlink := none
    size := 5
    server_mtime := 2
    fs_id := chars "f200"
    thumbs := none }

/-- A re-save of `fs_id` f100 whose file object carries no thumbs. -/
def fileNoThumbs : UFile :=
  { server_filename := chars "movie.mp4"
    dlink := none
    size := 1000
    server_mtime := 1700000001
    fs_id := chars "f100"
    thumbs := none }

/-- An upstream payload with one file. -/
def upstreamA : Upstream :=
  { list := [fileA], uk := chars "111", shareid := some 77, share_id := none }

/-- An upstream payload with an empty file list. -/
def upstreamEmpty : Upstream :=
  { list := [], uk := chars "111", shareid := none, share_id := none }

/-- A live environment whose cached token is rejected with 403 by the API
while the fresh token succeeds. -/
def envAuthFail : LiveEnv :=
  { cachedToken := some tokenA
    api := fun t =>
      if t == tokenA then some ⟨403, none⟩ else some ⟨200, some upstreamA⟩
    page := some 200
    pageHtml := htmlWithToken
    hasD1 := true
    kvWriteOk := true
    now := 1700000002 }

/-- A live environment with no cached token and a share page holding no
token. -/
def envNoTokenInPage : LiveEnv :=
  { cachedToken := none
    api := fun _ => none
    page := some 200
    pageHtml := htmlNoToken
    hasD1 := false
    kvWriteOk := true
    now := 0 }

/-- A live environment whose API answers 200 with a non-JSON body. -/
def envNonJson : LiveEnv :=
  { cachedToken := some tokenA
    api := fun _ => some ⟨200, none⟩
    page := none
    pageHtml := []
    hasD1 := true
    kvWriteOk := true
    now := 0 }

/-- A live environment whose API answers 200 with an empty file list. -/
def envEmptyList : LiveEnv :=
  { cachedToken := some tokenA
    api := fun _ => some ⟨200, some upstreamEmpty⟩
    page := none
    pageHtml := []
    hasD1 := true
    kvWriteOk := true
    now := 0 }

/-- A fully successful live environment whose fast-cache write fails. -/
def envSuccess : LiveEnv :=
  { cachedToken := some tokenA
    api := fun _ => some ⟨200, some upstreamA⟩
    page := some 200
    pageHtml := htmlWithToken
    hasD1 := true
    kvWriteOk := false
    now := 1700000002 }

/-- A save environment where saving the file with `fs_id` f100 throws. -/
def failsF100 : Text → Bool := fun fsId => fsId == chars "f100"

/-- A thumbnails table holding one stale row for `fs_id` f100. -/
def staleThumbTable : ThumbTable :=
  [⟨chars "f100", chars "http://old/thumb.jpg", chars "url1"⟩]


/-! # Claims -/

/-- C1: a target URL whose hostname is not an exact allow-list match and not
a `.domain` suffix match (or which does not parse as a URL, in which case
`isAllowedSegmentUrl` is `false`) makes the segment relay answer 403 with
code `invalid_segment_url` and issue no outbound fetch; a URL whose hostname
matches passes validation and the (single) fetch is issued.  The validation
decision is taken before any network call: the handler's observable action
is either the blocked response or the fetch, never both.  Concretely,
`http://evil.example/seg.ts` is blocked while `https://teraboxcdn.com/seg.ts`
and `https://sub.terabox.com/seg.ts` are fetched. -/
theorem segment_relay_allowlist (u : Text) :
    (isAllowedSegmentUrl u = false →
      handleSegment (some u) = SegmentAction.blocked 403 (chars "invalid_segment_url")) ∧
    (isAllowedSegmentUrl u = true → handleSegment (some u) = SegmentAction.fetchUpstream u) ∧
    (isAllowedSegmentUrl u = true ↔
      ∃ h, parseUrlHostname u = some h ∧
        (h ∈ ALLOWED_SEGMENT_DOMAINS ∨
          ∃ d ∈ ALLOWED_SEGMENT_DOMAINS, endsWithL ('.' :: d) h = true)) ∧
    handleSegment (some (chars "http://evil.example/seg.ts")) =
      SegmentAction.blocked 403 (chars "invalid_segment_url") ∧
    handleSegment (some (chars "https://teraboxcdn.com/seg.ts")) =
      SegmentAction.fetchUpstream (chars "https://teraboxcdn.com/seg.ts") ∧
    handleSegment (some (chars "https://sub.terabox.com/seg.ts")) =
      SegmentAction.fetchUpstream (chars "https://sub.terabox.com/seg.ts") := by
  refine ⟨?_, ?_, ?_, by decide, by decide, by decide⟩
  · intro h; simp [handleSegment, h]
  · intro h; simp [handleSegment, h]
  · unfold isAllowedSegmentUrl
    cases hp : parseUrlHostname u with
    | none => simp
    | some h =>
      simp only [List.any_eq_true, Bool.or_eq_true, beq_iff_eq]
      constructor
      · rintro ⟨d, hd, hcase⟩
        exact ⟨h, rfl, hcase.elim (fun e => Or.inl (e ▸ hd)) (fun e => Or.inr ⟨d, hd, e⟩)⟩
      · rintro ⟨h2, hh2, hcase⟩
        cases hh2
        rcases hcase with hm | ⟨d, hd, he⟩
        · exact ⟨h, hm, Or.inl rfl⟩
        · exact ⟨d, hd, Or.inr he⟩

/-- Witness for C1 at concrete URLs. -/
theorem segment_relay_allowlist_witness :
    handleSegment (some (chars "http://evil.example/seg.ts")) =
      SegmentAction.blocked 403 (chars "invalid_segment_url") ∧
    handleSegment (some (chars "https://sub.terabox.com/seg.ts")) =
      SegmentAction.fetchUpstream (chars "https://sub.terabox.com/seg.ts") :=
  ⟨(segment_relay_allowlist (chars "http://evil.example/seg.ts")).1 (by decide),
   (segment_relay_allowlist (chars "https://sub.terabox.com/seg.ts")).2.1 (by decide)⟩

/-- C2 counterexample: on a fast-cache hit the worker's response carries the
literal source tag `kv` (and on a durable-store hit `d1`), not `fast-cache`
(`durable-store`) as the claim states. -/
theorem resolve_source_tag_counterexample :
    resolveTierPlan false false true ReadOutcome.hit ReadOutcome.miss =
      ([CacheTier.fastCache], TierResult.fromKv) ∧
    sourceTag TierResult.fromKv = chars "kv" ∧
    ¬ sourceTag TierResult.fromKv = chars "fast-cache" ∧
    sourceTag TierResult.fromD1 = chars "d1" ∧
    ¬ sourceTag TierResult.fromD1 = chars "durable-store" := by
  decide

/-- C2 (amended: the emitted tags are `kv` / `d1` / `live`): with neither
flag set the fast cache is read first and a hit answers immediately with tag
`kv`; with `raw` and not `refresh` (and the durable store configured) the
durable store is read first and a hit answers with tag `d1`; with `refresh`
set no cache tier is read at all and the pipeline goes live; `raw` never
causes a fast-cache read; a live result is tagged `live`. -/
theorem resolve_cache_tier_order (refresh raw hasD1 : Bool)
    (kvRead d1Read : ReadOutcome) :
    (refresh = true →
      resolveTierPlan refresh raw hasD1 kvRead d1Read = ([], TierResult.live)) ∧
    (raw = true →
      CacheTier.fastCache ∉ (resolveTierPlan refresh raw hasD1 kvRead d1Read).1) ∧
    (refresh = false → raw = false → kvRead = ReadOutcome.hit →
      resolveTierPlan refresh raw hasD1 kvRead d1Read =
        ([CacheTier.fastCache], TierResult.fromKv)) ∧
    (refresh = false → raw = true → hasD1 = true → d1Read = ReadOutcome.hit →
      resolveTierPlan refresh raw hasD1 kvRead d1Read =
        ([CacheTier.durableStore], TierResult.fromD1)) ∧
    sourceTag TierResult.fromKv = chars "kv" ∧
    sourceTag TierResult.fromD1 = chars "d1" ∧
    sourceTag TierResult.live = chars "live" := by
  refine ⟨?_, ?_, ?_, ?_, rfl, rfl, rfl⟩
  · rintro rfl
    cases raw <;> cases hasD1 <;> cases kvRead <;> cases d1Read <;> rfl
  · rintro rfl
    cases refresh <;> cases hasD1 <;> cases kvRead <;> cases d1Read <;> decide
  · rintro rfl rfl rfl
    rfl
  · rintro rfl rfl rfl rfl
    cases kvRead <;> rfl

/-- Witness for C2 at concrete flag/read combinations. -/
theorem resolve_cache_tier_order_witness :
    resolveTierPlan false false true ReadOutcome.hit ReadOutcome.hit =
      ([CacheTier.fastCache], TierResult.fromKv) ∧
    resolveTierPlan false true true ReadOutcome.miss ReadOutcome.hit =
      ([CacheTier.durableStore], TierResult.fromD1) ∧
    resolveTierPlan true true true ReadOutcome.hit ReadOutcome.hit =
      ([], TierResult.live) :=
  ⟨(resolve_cache_tier_order false false true ReadOutcome.hit ReadOutcome.hit).2.2.1
      rfl rfl rfl,
   (resolve_cache_tier_order false true true ReadOutcome.miss ReadOutcome.hit).2.2.2.1
      rfl rfl rfl rfl,
   (resolve_cache_tier_order true true true ReadOutcome.hit ReadOutcome.hit).1 rfl⟩

theorem fetchWithRetryGo_attempts_bounds (f : Nat → FetchOutcome) (b : Nat) :
    ∀ (fuel a : Nat), a + 1 ≤ (fetchWithRetryGo f b a fuel).attempts ∧
      (fetchWithRetryGo f b a fuel).attempts ≤ a + fuel + 1 := by
  intro fuel
  induction fuel with
  | zero => intro a; cases h : f a <;> simp [fetchWithRetryGo, h]
  | succ n ih =>
    intro a
    cases h : f a with
    | res s =>
      by_cases hc : (resOk s || !isTransientStatus s) = true
      · simp [fetchWithRetryGo, h, hc]
      · simp [fetchWithRetryGo, h, hc]
        have := ih (a + 1)
        omega
    | err =>
      simp [fetchWithRetryGo, h]
      have := ih (a + 1)
      omega

theorem fetchWithRetryGo_nonfinal_transient (f : Nat → FetchOutcome) (b : Nat) :
    ∀ (fuel a i : Nat), a ≤ i →
      i + 1 < (fetchWithRetryGo f b a fuel).attempts →
      transientFailure (f i) = true := by
  intro fuel
  induction fuel with
  | zero =>
    intro a i hai hlt
    have hat : (fetchWithRetryGo f b a 0).attempts = a + 1 := by
      cases h : f a <;> simp [fetchWithRetryGo, h]
    omega
  | succ n ih =>
    intro a i hai hlt
    cases h : f a with
    | res s =>
      by_cases hc : (resOk s || !isTransientStatus s) = true
      · simp [fetchWithRetryGo, h, hc] at hlt
        omega
      · simp [fetchWithRetryGo, h, hc] at hlt
        rcases Nat.eq_or_lt_of_le hai with rfl | hlt2
        · simp [transientFailure, h]
          simpa using hc
        · exact ih (a + 1) i hlt2 hlt
    | err =>
      simp [fetchWithRetryGo, h] at hlt
      rcases Nat.eq_or_lt_of_le hai with rfl | hlt2
      · simp [transientFailure, h]
      · exact ih (a + 1) i hlt2 hlt

theorem fetchWithRetryGo_result_last (f : Nat → FetchOutcome) (b : Nat) :
    ∀ (fuel a : Nat), (fetchWithRetryGo f b a fuel).result =
      (match f ((fetchWithRetryGo f b a fuel).attempts - 1) with
        | FetchOutcome.res s => some s
        | FetchOutcome.err => none) := by
  intro fuel
  induction fuel with
  | zero => intro a; cases h : f a <;> simp [fetchWithRetryGo, h]
  | succ n ih =>
    intro a
    cases h : f a with
    | res s =>
      by_cases hc : (resOk s || !isTransientStatus s) = true
      · simp [fetchWithRetryGo, h, hc]
      · simp [fetchWithRetryGo, h, hc]
        exact ih (a + 1)
    | err =>
      simp [fetchWithRetryGo, h]
      exact ih (a + 1)

theorem fetchWithRetryGo_final_transient (f : Nat → FetchOutcome) (b : Nat) :
    ∀ (fuel a : Nat),
      transientFailure (f ((fetchWithRetryGo f b a fuel).attempts - 1)) = true →
      (fetchWithRetryGo f b a fuel).attempts = a + fuel + 1 := by
  intro fuel
  induction fuel with
  | zero => intro a _; cases h : f a <;> simp [fetchWithRetryGo, h]
  | succ n ih =>
    intro a htr
    cases h : f a with
    | res s =>
      by_cases hc : (resOk s || !isTransientStatus s) = true
      · exfalso
        simp [fetchWithRetryGo, h, hc] at htr
        simp [transientFailure] at htr
        rcases htr with ⟨h1, h2⟩
        simp [h1, h2] at hc
      · simp [fetchWithRetryGo, h, hc] at htr ⊢
        have := ih (a + 1) htr
        omega
    | err =>
      simp [fetchWithRetryGo, h] at htr ⊢
      have := ih (a + 1) htr
      omega

theorem fetchWithRetryGo_delays (f : Nat → FetchOutcome) (b : Nat) :
    ∀ (fuel a : Nat),
      (fetchWithRetryGo f b a fuel).delays.length + (a + 1) =
        (fetchWithRetryGo f b a fuel).attempts ∧
      ∀ n, n < (fetchWithRetryGo f b a fuel).delays.length →
        (fetchWithRetryGo f b a fuel).delays.get? n = some (b * 2 ^ (a + n)) := by
  intro fuel
  induction fuel with
  | zero =>
    intro a
    cases h : f a <;> simp [fetchWithRetryGo, h]
  | succ n ih =>
    intro a
    cases h : f a with
    | res s =>
      by_cases hc : (resOk s || !isTransientStatus s) = true
      · simp [fetchWithRetryGo, h, hc]
      · refine ⟨?_, ?_⟩
        · have h1 := (ih (a + 1)).1
          simp [fetchWithRetryGo, h, hc]
          omega
        · intro m hm
          have heq : (fetchWithRetryGo f b a (n + 1)).delays
              = b * 2 ^ a :: (fetchWithRetryGo f b (a + 1) n).delays := by
            simp [fetchWithRetryGo, h, hc]
          rw [heq] at hm ⊢
          cases m with
          | zero => rfl
          | succ k =>
            have hk : k < (fetchWithRetryGo f b (a + 1) n).delays.length := by
              simp at hm
              omega
            have hg := (ih (a + 1)).2 k hk
            rw [List.get?_cons_succ, hg]
            have hx : a + 1 + k = a + (k + 1) := by omega
            rw [hx]
    | err =>
      refine ⟨?_, ?_⟩
      · have h1 := (ih (a + 1)).1
        simp [fetchWithRetryGo, h]
        omega
      · intro m hm
        have heq : (fetchWithRetryGo f b a (n + 1)).delays
            = b * 2 ^ a :: (fetchWithRetryGo f b (a + 1) n).delays := by
          simp [fetchWithRetryGo, h]
        rw [heq] at hm ⊢
        cases m with
        | zero => rfl
        | succ k =>
          have hk : k < (fetchWithRetryGo f b (a + 1) n).delays.length := by
            simp at hm
            omega
          have hg := (ih (a + 1)).2 k hk
          rw [List.get?_cons_succ, hg]
          have hx : a + 1 + k = a + (k + 1) := by omega
          rw [hx]


theorem fetchWithRetry_contract (f : Nat → FetchOutcome) (retries baseDelayMs : Nat) :
    ((fetchWithRetry f retries baseDelayMs).attempts ≤ retries + 1) ∧
    (∀ i, i + 1 < (fetchWithRetry f retries baseDelayMs).attempts →
      transientFailure (f i) = true) ∧
    ((fetchWithRetry f retries baseDelayMs).result =
      (match f ((fetchWithRetry f retries baseDelayMs).attempts - 1) with
        | FetchOutcome.res s => some s
        | FetchOutcome.err => none)) ∧
    (transientFailure (f ((fetchWithRetry f retries baseDelayMs).attempts - 1)) = true →
      (fetchWithRetry f retries baseDelayMs).attempts = retries + 1) ∧
    ((fetchWithRetry f retries baseDelayMs).delays.length + 1 =
      (fetchWithRetry f retries baseDelayMs).attempts) ∧
    (∀ n, n < (fetchWithRetry f retries baseDelayMs).delays.length →
      (fetchWithRetry f retries baseDelayMs).delays.get? n =
        some (baseDelayMs * 2 ^ n)) ∧
    fetchWithRetry seq500x2then200 2 200 = ⟨some 200, 3, [200, 400]⟩ ∧
    fetchWithRetry seqAll500 2 200 = ⟨some 500, 3, [200, 400]⟩ := by
  refine ⟨?_, ?_, ?_, ?_, ?_, ?_, by decide, by decide⟩
  · have := (fetchWithRetryGo_attempts_bounds f baseDelayMs retries 0).2
    simpa [fetchWithRetry] using this
  · intro i hi
    exact fetchWithRetryGo_nonfinal_transient f baseDelayMs retries 0 i (Nat.zero_le i) hi
  · exact fetchWithRetryGo_result_last f baseDelayMs retries 0
  · intro htr
    have := fetchWithRetryGo_final_transient f baseDelayMs retries 0 htr
    simpa [fetchWithRetry] using this
  · have := (fetchWithRetryGo_delays f baseDelayMs retries 0).1
    simpa [fetchWithRetry] using this
  · intro n hn
    have := (fetchWithRetryGo_delays f baseDelayMs retries 0).2 n hn
    simpa [fetchWithRetry] using this

theorem fetchWithRetry_contract_witness :
    (fetchWithRetry seq500x2then200 2 200).attempts ≤ 3 ∧
    transientFailure (seq500x2then200 0) = true :=
  ⟨(fetchWithRetry_contract seq500x2then200 2 200).1,
   (fetchWithRetry_contract seq500x2then200 2 200).2.1 0 (by decide)⟩



/-- C4 counterexample: the source tests `line.startsWith('http')`, not "is an
absolute URL": the line `httpgarbage` is not an absolute URL yet is
rewritten, and the absolute URL `ftp://cdn.example/seg1.ts` passes through
unchanged. -/
theorem rewrite_absolute_url_counterexample :
    specIsAbsoluteUrl (chars "httpgarbage") = false ∧
    ¬ rewriteLine baseExample (chars "httpgarbage") = chars "httpgarbage" ∧
    specIsAbsoluteUrl (chars "ftp://cdn.example/seg1.ts") = true ∧
    rewriteLine baseExample (chars "ftp://cdn.example/seg1.ts") =
      chars "ftp://cdn.example/seg1.ts" := by
  decide

/-- C4 (amended: the rewritten lines are exactly those starting with `http`,
the source's approximation of "absolute URL"): processing is line-by-line;
`#`-prefixed, blank and non-`http`-prefixed lines are unchanged; an
`http`-prefixed line becomes the request's own query-stripped base URL with
`mode=segment` and `url=<line>` appended; on the concrete playlist
`"#EXTM3U\n\nhttp://cdn.example/seg1.ts\n"` the first two lines survive
verbatim, line 3 becomes a same-origin URL (it starts with the base), and
its `url` parameter decodes back to `http://cdn.example/seg1.ts`. -/
theorem rewriteM3U8_line_oriented (content base line : Text) :
    (rewriteM3U8 content base =
      joinWithChar '\n' ((splitOnChar '\n' content).map (rewriteLine base))) ∧
    (startsWithL (chars "#") line = true → rewriteLine base line = line) ∧
    (jsTrimEmpty line = true → rewriteLine base line = line) ∧
    (startsWithL (chars "http") line = false → rewriteLine base line = line) ∧
    (startsWithL (chars "#") line = false → jsTrimEmpty line = false →
      startsWithL (chars "http") line = true →
      rewriteLine base line =
        base ++ chars "?mode=segment&url=" ++ formUrlEncode line) ∧
    splitOnChar '\n'
        (rewriteM3U8 (chars "#EXTM3U\n\nhttp://cdn.example/seg1.ts\n") baseExample) =
      [chars "#EXTM3U", chars "",
        baseExample ++ chars "?mode=segment&url=" ++
          formUrlEncode (chars "http://cdn.example/seg1.ts"), chars ""] ∧
    startsWithL baseExample
      ((splitOnChar '\n'
          (rewriteM3U8 (chars "#EXTM3U\n\nhttp://cdn.example/seg1.ts\n") baseExample)).getD
        2 []) = true ∧
    getQueryParam
      ((splitOnChar '\n'
          (rewriteM3U8 (chars "#EXTM3U\n\nhttp://cdn.example/seg1.ts\n") baseExample)).getD
        2 [])
      (chars "url") = some (formUrlEncode (chars "http://cdn.example/seg1.ts")) ∧
    formUrlDecodeBytes (formUrlEncode (chars "http://cdn.example/seg1.ts")) =
      some (utf8Bytes (chars "http://cdn.example/seg1.ts")) := by
  refine ⟨rfl, ?_, ?_, ?_, ?_, by decide, by decide, by decide, by decide⟩
  · intro h; simp [rewriteLine, h]
  · intro h; simp [rewriteLine, h]
  · intro h; simp [rewriteLine, h]
  · intro h1 h2 h3; simp [rewriteLine, h1, h2, h3]

/-- Witness for C4 at concrete playlist lines. -/
theorem rewriteM3U8_line_oriented_witness :
    rewriteLine baseExample (chars "#EXT-X-VERSION:3") = chars "#EXT-X-VERSION:3" ∧
    rewriteLine baseExample (chars "seg1.ts") = chars "seg1.ts" ∧
    rewriteLine baseExample (chars "http://cdn.example/seg1.ts") =
      baseExample ++ chars "?mode=segment&url=" ++
        formUrlEncode (chars "http://cdn.example/seg1.ts") :=
  ⟨(rewriteM3U8_line_oriented [] baseExample (chars "#EXT-X-VERSION:3")).2.1 (by decide),
   (rewriteM3U8_line_oriented [] baseExample (chars "seg1.ts")).2.2.2.1 (by decide),
   (rewriteM3U8_line_oriented [] baseExample
      (chars "http://cdn.example/seg1.ts")).2.2.2.2.1 (by decide) (by decide) (by decide)⟩



/-- The no-token branch never reads the cached token, so clearing it does not
change its behaviour. -/
theorem liveNoToken_cachedToken_irrel (env : LiveEnv) (surl : Text) (raw : Bool) :
    liveNoToken { env with cachedToken := none } surl raw = liveNoToken env surl raw := by
  rfl

/-- C5: when the metadata API called with a cached token answers 401 or 403,
the pipeline deletes that token and continues exactly as if no token had been
cached (same events, same outcome, prefixed by the failed call and the
delete); when the fetched page HTML yields no token the pipeline stops with
403 `token_extract_failed` after exactly one page fetch — the scrape is not
retried and no API call happens; when a token is scraped it is cached with a
600-second (10-minute) TTL before the API call made with it. -/
theorem live_token_lifecycle (env : LiveEnv) (surl : Text) (raw : Bool)
    (t : Text) (r : ApiResponse) (tok : Text) (st : Nat) :
    (env.cachedToken = some t → env.api t = some r →
      (r.status = 401 ∨ r.status = 403) →
      handleResolveLive env surl raw =
        (LiveEvent.apiCall t :: LiveEvent.tokenDelete ::
            (handleResolveLive { env with cachedToken := none } surl raw).1,
          (handleResolveLive { env with cachedToken := none } surl raw).2)) ∧
    (env.cachedToken = none → env.page = some st → resOk st = true →
      extractJsToken env.pageHtml = none →
      handleResolveLive env surl raw =
        ([LiveEvent.pageFetch],
          LiveOutcome.errorResponse 403 (chars "token_extract_failed"))) ∧
    (env.cachedToken = none → env.page = some st → resOk st = true →
      extractJsToken env.pageHtml = some tok →
      (handleResolveLive env surl raw).1.take 3 =
        [LiveEvent.pageFetch, LiveEvent.tokenPut tok (10 * 60),
          LiveEvent.apiCall tok]) ∧
    10 * 60 = 600 := by
  refine ⟨?_, ?_, ?_, rfl⟩
  · intro h1 h2 h3
    have hcond : (r.status == 401 || r.status == 403) = true := by
      rcases h3 with h | h <;> simp [h]
    simp [handleResolveLive, h1, h2, hcond, liveNoToken_cachedToken_irrel]
  · intro h1 h2 h3 h4
    simp [handleResolveLive, h1, liveNoToken, h2, h3, h4]
  · intro h1 h2 h3 h4
    simp only [handleResolveLive, h1, liveNoToken, h2, h3, h4]
    cases env.api tok <;> simp

/-- Witness for C5 on concrete environments. -/
theorem live_token_lifecycle_witness :
    handleResolveLive envAuthFail (chars "surl0") false =
      (LiveEvent.apiCall tokenA :: LiveEvent.tokenDelete ::
          (handleResolveLive { envAuthFail with cachedToken := none }
            (chars "surl0") false).1,
        (handleResolveLive { envAuthFail with cachedToken := none }
          (chars "surl0") false).2) ∧
    handleResolveLive envNoTokenInPage (chars "surl0") false =
      ([LiveEvent.pageFetch],
        LiveOutcome.errorResponse 403 (chars "token_extract_failed")) ∧
    (handleResolveLive { envAuthFail with cachedToken := none }
        (chars "surl0") false).1.take 3 =
      [LiveEvent.pageFetch, LiveEvent.tokenPut (chars "freshTok") (10 * 60),
        LiveEvent.apiCall (chars "freshTok")] :=
  ⟨(live_token_lifecycle envAuthFail (chars "surl0") false tokenA ⟨403, none⟩
      (chars "freshTok") 200).1 rfl (by decide) (Or.inr rfl),
   (live_token_lifecycle envNoTokenInPage (chars "surl0") false tokenA ⟨403, none⟩
      (chars "freshTok") 200).2.1 rfl rfl (by decide) (by decide),
   (live_token_lifecycle { envAuthFail with cachedToken := none }
      (chars "surl0") false tokenA ⟨403, none⟩ (chars "freshTok") 200).2.2.1
      rfl rfl (by decide) (by decide)⟩



/-- C6: after a successful-status metadata API response, a body that does not
parse as JSON fails with HTTP 502 and code `upstream_non_json`, and a parsed
body with a missing-or-empty file list fails with HTTP 502 and code
`upstream_empty`; both are surfaced as 502 upstream errors (not a 4xx), and
the event trace holds exactly the one API call — neither condition triggers a
retry of the upstream call. -/
theorem live_upstream_body_validation (env : LiveEnv) (surl : Text) (raw : Bool)
    (t : Text) (r : ApiResponse) (up : Upstream) :
    (env.cachedToken = some t → env.api t = some r → resOk r.status = true →
      r.body = none →
      handleResolveLive env surl raw =
        ([LiveEvent.apiCall t],
          LiveOutcome.errorResponse 502 (chars "upstream_non_json"))) ∧
    (env.cachedToken = some t → env.api t = some r → resOk r.status = true →
      r.body = some up → up.list = [] →
      handleResolveLive env surl raw =
        ([LiveEvent.apiCall t],
          LiveOutcome.errorResponse 502 (chars "upstream_empty"))) := by
  constructor
  · intro h1 h2 hok hbody
    have hne : (r.status == 401 || r.status == 403) = false := by
      simp only [resOk, Bool.and_eq_true, decide_eq_true_eq] at hok
      simp only [Bool.or_eq_false_iff, beq_eq_false_iff_ne]
      omega
    simp [handleResolveLive, h1, h2, hne, livePost, hok, hbody]
  · intro h1 h2 hok hbody hlist
    have hne : (r.status == 401 || r.status == 403) = false := by
      simp only [resOk, Bool.and_eq_true, decide_eq_true_eq] at hok
      simp only [Bool.or_eq_false_iff, beq_eq_false_iff_ne]
      omega
    simp [handleResolveLive, h1, h2, hne, livePost, hok, hbody, hlist]

/-- Witness for C6 on concrete environments. -/
theorem live_upstream_body_validation_witness :
    handleResolveLive envNonJson (chars "surl0") false =
      ([LiveEvent.apiCall tokenA],
        LiveOutcome.errorResponse 502 (chars "upstream_non_json")) ∧
    handleResolveLive envEmptyList (chars "surl0") false =
      ([LiveEvent.apiCall tokenA],
        LiveOutcome.errorResponse 502 (chars "upstream_empty")) :=
  ⟨(live_upstream_body_validation envNonJson (chars "surl0") false tokenA
      ⟨200, none⟩ upstreamEmpty).1 rfl rfl (by decide) rfl,
   (live_upstream_body_validation envEmptyList (chars "surl0") false tokenA
      ⟨200, some upstreamEmpty⟩ upstreamEmpty).2 rfl rfl (by decide) rfl rfl⟩



/-- The outcome of the post-response stage depends only on the payload and
the clock, not on whether the fast-cache write succeeds. -/
theorem livePost_outcome_ext (e1 e2 : LiveEnv) (surl : Text) (raw : Bool)
    (r : ApiResponse) (_hD1 : e1.hasD1 = e2.hasD1) (hnow : e1.now = e2.now) :
    (livePost e1 surl raw r).2 = (livePost e2 surl raw r).2 := by
  by_cases h1 : resOk r.status
  · cases hb : r.body with
    | none => simp [livePost, h1, hb]
    | some up =>
      cases hl : up.list with
      | nil => simp [livePost, h1, hb, hl]
      | cons file rest => cases raw <;> simp [livePost, h1, hb, hl, hnow]
  · simp [livePost, h1]

/-- The outcome of the no-token branch is unaffected by the fast-cache write
flag (congruence in every field it reads). -/
theorem liveNoToken_outcome_ext (e1 e2 : LiveEnv) (surl : Text) (raw : Bool)
    (hpage : e1.page = e2.page) (hhtml : e1.pageHtml = e2.pageHtml)
    (hapi : e1.api = e2.api) (hD1 : e1.hasD1 = e2.hasD1)
    (hnow : e1.now = e2.now) :
    (liveNoToken e1 surl raw).2 = (liveNoToken e2 surl raw).2 := by
  cases hp : e2.page with
  | none => simp [liveNoToken, hp, hpage]
  | some st =>
    by_cases hok : resOk st
    · cases he : extractJsToken e2.pageHtml with
      | none => simp [liveNoToken, hp, hpage, hok, he, hhtml]
      | some tok =>
        cases ha : e2.api tok with
        | none => simp [liveNoToken, hp, hpage, hok, he, hhtml, ha, hapi]
        | some r =>
          simp only [liveNoToken, hp, hpage, hok, he, hhtml, ha, hapi,
            Bool.not_true, if_false]
          exact livePost_outcome_ext e1 e2 surl raw r hD1 hnow
    · simp [liveNoToken, hp, hpage, hok]

/-- The outcome of the whole live path is unaffected by the fast-cache write
flag (congruence in every field it reads). -/
theorem handleResolveLive_outcome_ext (e1 e2 : LiveEnv) (surl : Text) (raw : Bool)
    (hct : e1.cachedToken = e2.cachedToken) (hpage : e1.page = e2.page)
    (hhtml : e1.pageHtml = e2.pageHtml) (hapi : e1.api = e2.api)
    (hD1 : e1.hasD1 = e2.hasD1) (hnow : e1.now = e2.now) :
    (handleResolveLive e1 surl raw).2 = (handleResolveLive e2 surl raw).2 := by
  cases hc : e2.cachedToken with
  | none =>
    simp only [handleResolveLive, hc, hct]
    exact liveNoToken_outcome_ext e1 e2 surl raw hpage hhtml hapi hD1 hnow
  | some t =>
    cases ha : e2.api t with
    | none => simp [handleResolveLive, hc, hct, ha, hapi]
    | some r =>
      by_cases hcond : (r.status == 401 || r.status == 403) = true
      · simp only [handleResolveLive, hc, hct, ha, hapi, hcond, if_true]
        exact liveNoToken_outcome_ext e1 e2 surl raw hpage hhtml hapi hD1 hnow
      · simp only [handleResolveLive, hc, hct, ha, hapi,
          Bool.not_eq_true] at hcond ⊢
        simp only [hcond, Bool.false_eq_true, if_false]
        exact livePost_outcome_ext e1 e2 surl raw r hD1 hnow


/-- C7: in canonical live mode the response record is the projection of the
FIRST upstream file; its `thumb` field follows the priority `url3`, `url2`,
`url1`, then `null` (skipping absent/empty URLs); the record is written to
the fast cache with a TTL of `7 * 24 * 60 * 60 = 604800` seconds; the
written record is the very record returned with source tag `live`; and a
fast-cache write failure leaves the outcome unchanged. -/
theorem live_canonical_record (env : LiveEnv) (surl : Text)
    (t : Text) (r : ApiResponse) (up : Upstream) (file : UFile)
    (rest : List UFile) (th : Thumbs) :
    (env.cachedToken = some t → env.api t = some r → resOk r.status = true →
      r.body = some up → up.list = file :: rest →
      handleResolveLive env surl false =
        (LiveEvent.apiCall t ::
            ((if env.hasD1 then [LiveEvent.d1Store up] else []) ++
              [LiveEvent.kvPut (projectRecord surl env.now up file)
                (7 * 24 * 60 * 60) env.kvWriteOk]),
          LiveOutcome.success (chars "live") (projectRecord surl env.now up file))) ∧
    ((handleResolveLive { env with kvWriteOk := false } surl false).2 =
      (handleResolveLive { env with kvWriteOk := true } surl false).2) ∧
    (projectRecord surl env.now up file).thumb = bestThumb file.thumbs ∧
    bestThumb (some th) =
      (if truthyText th.url3 then th.url3
        else if truthyText th.url2 then th.url2
        else if truthyText th.url1 then th.url1 else none) ∧
    bestThumb none = none ∧
    7 * 24 * 60 * 60 = 604800 := by
  refine ⟨?_, ?_, rfl, ?_, rfl, rfl⟩
  · intro h1 h2 hok hbody hlist
    have hne : (r.status == 401 || r.status == 403) = false := by
      simp only [resOk, Bool.and_eq_true, decide_eq_true_eq] at hok
      simp only [Bool.or_eq_false_iff, beq_eq_false_iff_ne]
      omega
    simp [handleResolveLive, h1, h2, hne, livePost, hok, hbody, hlist]
  · exact handleResolveLive_outcome_ext
      { env with kvWriteOk := false } { env with kvWriteOk := true }
      surl false rfl rfl rfl rfl rfl rfl
  · simp [bestThumb, jsOrText]

/-- Witness for C7 on a successful environment whose fast-cache write
fails. -/
theorem live_canonical_record_witness :
    handleResolveLive envSuccess (chars "surl0") false =
      (LiveEvent.apiCall tokenA ::
          ((if envSuccess.hasD1 then [LiveEvent.d1Store upstreamA] else []) ++
            [LiveEvent.kvPut
              (projectRecord (chars "surl0") envSuccess.now upstreamA fileA)
              (7 * 24 * 60 * 60) envSuccess.kvWriteOk]),
        LiveOutcome.success (chars "live")
          (projectRecord (chars "surl0") envSuccess.now upstreamA fileA)) :=
  (live_canonical_record envSuccess (chars "surl0") tokenA ⟨200, some upstreamA⟩
      upstreamA fileA [] thumbsA).1 rfl rfl (by decide) rfl rfl



/-- C8 counterexample: the per-file loop of `storeUpstreamData` runs inside a
single try/catch, so a failure while saving `fileA` (the first file) aborts
the save of `fileB`: nothing is saved even though only `fileA`'s save threw.
Per-file storage is therefore NOT independent. -/
theorem store_files_abort_counterexample :
    failsF100 fileA.fs_id = true ∧
    failsF100 fileB.fs_id = false ∧
    storeUpstreamFiles failsF100 [fileA, fileB] = ([], false) ∧
    ¬ fileB.fs_id ∈ (storeUpstreamFiles failsF100 [fileA, fileB]).1 := by
  decide

/-- C8 (amended: a storage failure while saving one MediaFile row aborts the
saving of the files after it in the list, while files saved before the
failure remain saved and the whole-share store merely reports `false`): with
`fails` marking the file whose save throws, saving `pre ++ f :: post` where
every file of `pre` succeeds and `f` fails stores exactly the files of `pre`;
with no failing file every file is stored. -/
theorem store_files_sequential (fails : Text → Bool) (pre : List UFile)
    (f : UFile) (post : List UFile) (files : List UFile) :
    (fails f.fs_id = true → (∀ g ∈ pre, fails g.fs_id = false) →
      storeUpstreamFiles fails (pre ++ f :: post) =
        (pre.map (fun g => g.fs_id), false)) ∧
    ((∀ g ∈ files, fails g.fs_id = false) →
      storeUpstreamFiles fails files = (files.map (fun g => g.fs_id), true)) ∧
    (∀ up : Upstream, storeUpstreamData fails up = storeUpstreamFiles fails up.list) := by
  refine ⟨?_, ?_, fun up => rfl⟩
  · intro hf
    induction pre with
    | nil =>
      intro _
      simp [storeUpstreamFiles, hf]
    | cons g gs ih =>
      intro hpre
      have hg : fails g.fs_id = false := hpre g (by simp)
      have hgs : ∀ x ∈ gs, fails x.fs_id = false := fun x hx => hpre x (by simp [hx])
      simp [storeUpstreamFiles, hg, ih hgs]
  · induction files with
    | nil => intro _; rfl
    | cons g gs ih =>
      intro hpre
      have hg : fails g.fs_id = false := hpre g (by simp)
      have hgs : ∀ x ∈ gs, fails x.fs_id = false := fun x hx => hpre x (by simp [hx])
      simp [storeUpstreamFiles, hg, ih hgs]

/-- Witness for C8 on concrete file lists. -/
theorem store_files_sequential_witness :
    storeUpstreamFiles failsF100 [fileB, fileA, fileB] = ([chars "f200"], false) ∧
    storeUpstreamFiles failsF100 [fileB] = ([chars "f200"], true) :=
  ⟨by
    have h := (store_files_sequential failsF100 [fileB] fileA [fileB] []).1
      (by decide) (by decide)
    simpa [fileB] using h,
   by
    have h := (store_files_sequential failsF100 [] fileA [] [fileB]).2.1
      (by decide)
    simpa [fileB] using h⟩

/-- Every row inserted by `saveThumbnails` belongs to the saved `fs_id`, names
one of the four tags, and carries that tag's URL. -/
theorem newThumbRows_spec (fsId : Text) (th : Thumbs) (row : ThumbRow)
    (h : row ∈ newThumbRows fsId th) :
    row.fs_id = fsId ∧ row.thumbnail_type ∈ thumbnailTypes ∧
      thumbField th row.thumbnail_type = some row.url := by
  simp only [newThumbRows, List.mem_filterMap] at h
  obtain ⟨ty, hty, hm⟩ := h
  cases hf : thumbField th ty with
  | none => rw [hf] at hm; simp at hm
  | some u =>
    rw [hf] at hm
    by_cases hu : u == ([] : Text)
    · simp [hu] at hm
    · simp [hu] at hm
      subst hm
      exact ⟨rfl, hty, hf⟩

/-- Rows of the saved `fs_id` do not survive the delete step. -/
theorem filter_beq_of_filter_not (table : ThumbTable) (fsId : Text) :
    (table.filter fun r => !(r.fs_id == fsId)).filter
      (fun r => r.fs_id == fsId) = [] := by
  induction table with
  | nil => rfl
  | cons r rs ih => by_cases h : r.fs_id == fsId <;> simp [h, ih]

/-- The delete step touches only rows of the saved `fs_id`. -/
theorem filter_not_beq_idem (table : ThumbTable) (fsId : Text) :
    (table.filter fun r => !(r.fs_id == fsId)).filter
        (fun r => !(r.fs_id == fsId)) =
      table.filter (fun r => !(r.fs_id == fsId)) := by
  induction table with
  | nil => rfl
  | cons r rs ih => by_cases h : r.fs_id == fsId <;> simp [h, ih]

/-- C9 counterexample: `saveMediaFile` runs `saveThumbnails` only under
`if (file.thumbs)`, so re-saving `fs_id` f100 with a file object carrying no
thumbs leaves the previously stored thumbnail row in place: the table still
holds a row for f100 although the new thumbnail set is empty. -/
theorem thumbnails_stale_counterexample :
    saveMediaFileThumbEffect staleThumbTable fileNoThumbs = staleThumbTable ∧
    fileNoThumbs.fs_id = chars "f100" ∧
    fileNoThumbs.thumbs = none ∧
    ¬ (staleThumbTable.filter fun r => r.fs_id == chars "f100") = [] := by
  decide

/-- C9 (amended: the delete-then-insert replacement happens on every re-save
whose file object carries a thumbs object; a re-save without one leaves the
old rows untouched): after saving a file with thumbs, the rows stored for its
`fs_id` are exactly the new set — one row per present (truthy) tag among
`url1`, `url2`, `url3`, `icon` — rows of other files are unchanged, and a
save without a thumbs object is the identity on the table. -/
theorem thumbnails_full_replacement (table : ThumbTable) (file : UFile)
    (th : Thumbs) :
    ((saveMediaFileThumbEffect table { file with thumbs := some th }).filter
        (fun r => r.fs_id == file.fs_id) = newThumbRows file.fs_id th) ∧
    ((saveMediaFileThumbEffect table { file with thumbs := some th }).filter
        (fun r => !(r.fs_id == file.fs_id)) =
      table.filter (fun r => !(r.fs_id == file.fs_id))) ∧
    (∀ row ∈ newThumbRows file.fs_id th,
      row.fs_id = file.fs_id ∧ row.thumbnail_type ∈ thumbnailTypes ∧
        thumbField th row.thumbnail_type = some row.url) ∧
    saveMediaFileThumbEffect table { file with thumbs := none } = table := by
  refine ⟨?_, ?_, fun row h => newThumbRows_spec file.fs_id th row h, rfl⟩
  · simp only [saveMediaFileThumbEffect, saveThumbnails, List.filter_append]
    rw [filter_beq_of_filter_not]
    rw [List.nil_append]
    rw [List.filter_eq_self.mpr]
    intro row hrow
    simp [(newThumbRows_spec file.fs_id th row hrow).1]
  · simp only [saveMediaFileThumbEffect, saveThumbnails, List.filter_append]
    rw [filter_not_beq_idem]
    have hnil : (newThumbRows file.fs_id th).filter
        (fun r => !(r.fs_id == file.fs_id)) = [] := by
      rw [List.filter_eq_nil_iff]
      intro row hrow
      simp [(newThumbRows_spec file.fs_id th row hrow).1]
    rw [hnil, List.append_nil]

/-- Witness for C9 on the concrete stale table. -/
theorem thumbnails_full_replacement_witness :
    (saveMediaFileThumbEffect staleThumbTable { fileA with thumbs := some thumbsA }).filter
        (fun r => r.fs_id == fileA.fs_id) = newThumbRows fileA.fs_id thumbsA ∧
    (⟨chars "f100", chars "https://cdn/t1.jpg", chars "url1"⟩ : ThumbRow).fs_id =
      fileA.fs_id :=
  ⟨(thumbnails_full_replacement staleThumbTable fileA thumbsA).1,
   ((thumbnails_full_replacement staleThumbTable fileA thumbsA).2.2.1
      ⟨chars "f100", chars "https://cdn/t1.jpg", chars "url1"⟩ (by decide)).1⟩

/-- C10: when a `media_files` row already exists for the `fs_id`, the upsert
updates exactly `share_id`, `category`, `md5`, `path`, `server_filename`,
`server_mtime`, `size`, `is_adult`, `cmd5` and `dlink` (to the freshly bound
values), while `isdir`, `local_ctime`, `local_mtime`, `play_forbid` and
`server_ctime` keep their previously stored values whatever the new upstream
file object holds. -/
theorem media_upsert_frame (old : MediaRow) (shareId : Text) (file : DbFile) :
    (saveMediaFileRow (some old) shareId file).fs_id = old.fs_id ∧
    (saveMediaFileRow (some old) shareId file).isdir = old.isdir ∧
    (saveMediaFileRow (some old) shareId file).local_ctime = old.local_ctime ∧
    (saveMediaFileRow (some old) shareId file).local_mtime = old.local_mtime ∧
    (saveMediaFileRow (some old) shareId file).play_forbid = old.play_forbid ∧
    (saveMediaFileRow (some old) shareId file).server_ctime = old.server_ctime ∧
    (saveMediaFileRow (some old) shareId file).share_id = shareId ∧
    (saveMediaFileRow (some old) shareId file).category = jsOrNullNat file.category ∧
    (saveMediaFileRow (some old) shareId file).md5 = jsOrNullText file.md5 ∧
    (saveMediaFileRow (some old) shareId file).path = jsOrNullText file.path ∧
    (saveMediaFileRow (some old) shareId file).server_filename =
      jsOrNullText file.server_filename ∧
    (saveMediaFileRow (some old) shareId file).server_mtime =
      jsOrNullNat file.server_mtime ∧
    (saveMediaFileRow (some old) shareId file).size =
      (if truthyNat file.size then file.size else none) ∧
    (saveMediaFileRow (some old) shareId file).is_adult = jsOrZero file.is_adult ∧
    (saveMediaFileRow (some old) shareId file).cmd5 = jsOrNullText file.cmd5 ∧
    (saveMediaFileRow (some old) shareId file).dlink = jsOrNullText file.dlink :=
  ⟨rfl, rfl, rfl, rfl, rfl, rfl, rfl, rfl, rfl, rfl, rfl, rfl, rfl, rfl, rfl, rfl⟩


end TbxProxy
